import Mathlib

/-!
Verification development for the AI-Powered Code Review Assistant repository.

The Python sources under verification are `app.py`, `config.py`,
`ingestion/github_client.py` and `llm/chat_llm.py`.  Pure fragments are
embedded as Lean functions; Python exceptions become `Except PyError`;
the environment becomes an explicit `Config` record; external services
(git, the embedding provider, the chat-completion provider) become
function parameters.  Components of the repository that are referenced
by the application but whose sources are not available (the vector
store, the retriever, the prompt builder) are modelled from the
specification and marked as such in their doc comments.
-/

/-- Python exception values that the embedded code can raise. -/
inductive PyError
  | typeError (msg : String)
  | runtimeError (msg : String)
  | fileNotFoundError (msg : String)
deriving DecidableEq

/-- The message carried by a Python exception, as rendered by str(e). -/
def pyErrorMsg : PyError → String
  | .typeError m => m
  | .runtimeError m => m
  | .fileNotFoundError m => m

/-- Python truthiness of an optional environment string: `None` and the
empty string are falsy, any other string is truthy.  This is the test
performed by `if not OPENAI_API_KEY` in `config.py`. -/
def truthy : Option String → Bool
  | none => false
  | some s => !s.isEmpty

/-- The environment read by `config.py`: the two credentials obtained
via `os.getenv`. -/
structure Config where
  OPENAI_API_KEY : Option String
  GITHUB_TOKEN : Option String

/-- Embedding of `validate_config` from `config.py`: collects the
missing required env vars (only `OPENAI_API_KEY` is checked; the
comment in the source says GITHUB_TOKEN is optional) and raises
`RuntimeError` when the list is nonempty. -/
def validate_config (c : Config) : Except PyError Unit :=
  let missing : List String :=
    if truthy c.OPENAI_API_KEY then [] else ["OPENAI_API_KEY"]
  if missing.isEmpty then Except.ok ()
  else Except.error (.runtimeError ("Missing required env vars: " ++ String.intercalate ", " missing))

/-- Result of the startup section of `main` in `app.py`. -/
inductive StartupResult
  | halted (msg : String)
  | rendered
deriving DecidableEq

/-- Embedding of the first block of `main` in `app.py`: `validate_config`
is called inside try/except; on `RuntimeError` the error text is shown
and `st.stop()` halts the script before any page is rendered. -/
def mainStartup (c : Config) : StartupResult :=
  match validate_config c with
  | .error e => .halted (pyErrorMsg e)
  | .ok _ => .rendered

/-- Embedding of `clone_or_update_repo` from `ingestion/github_client.py`.
The function first checks `GITHUB_TOKEN` and raises `RuntimeError` when
it is unset; the git clone/pull work itself is external and is passed in
as `gitResult`. -/
def clone_or_update_repo (c : Config) (gitResult : Except PyError (String × String))
    (_owner _name : String) : Except PyError (String × String) :=
  if truthy c.GITHUB_TOKEN then gitResult
  else
    Except.error (.runtimeError "GITHUB_TOKEN is not set. Add it to your .env for Phase 2.")

/-- The positional parameters of `def clone_or_update_repo(owner, name)`
in `ingestion/github_client.py`. -/
def clone_or_update_repo_params : List String := ["owner", "name"]

/-- The number of positional arguments at the call site in `app.py`:
`clone_or_update_repo(owner, name, access_token)`. -/
def fetchIndexCallArgCount : Nat := 3

/-- Python positional-argument binding: a call with a number of
positional arguments different from the number of parameters (no
defaults, no varargs here) raises `TypeError` before the body runs. -/
def callPositional (fname : String) (paramCount argCount : Nat) : Except PyError Unit :=
  if argCount = paramCount then Except.ok ()
  else Except.error (.typeError (fname ++ "() takes " ++ toString paramCount ++
    " positional arguments but " ++ toString argCount ++ " were given"))

/-- Outcome of the sidebar section guarded by the button
Fetch and Index selected repo in `app.py`. -/
inductive IndexOutcome
  | success (msg : String)
  | failure (msg : String)
deriving DecidableEq

/-- The try body of the indexing block in `app.py`: the call
`clone_or_update_repo(owner, name, access_token)` binds three positional
arguments against the two-parameter definition, and only if that binding
succeeds does the rest of the body (clone, chunk, build, save metadata)
run; the rest is abstracted as `rest`. -/
def fetchAndIndexBody (rest : Unit → Except PyError String) : Except PyError String :=
  match callPositional "clone_or_update_repo" clone_or_update_repo_params.length
      fetchIndexCallArgCount with
  | .error e => .error e
  | .ok _ => rest ()

/-- The indexing block of `main` in `app.py`: the try body wrapped in
except Exception, which shows a failure message built from the
exception. -/
def fetchAndIndexAction (rest : Unit → Except PyError String) : IndexOutcome :=
  match fetchAndIndexBody rest with
  | .ok m => .success m
  | .error e => .failure ("Failed to fetch/index repo: " ++ pyErrorMsg e)

/-- A code chunk as described by the data model: provenance metadata
plus the chunk text; `commit_hash` is the optional metadata entry set by
the indexing block in `app.py`. -/
structure CodeChunk where
  repo_id : String
  file_path : String
  start_line : Nat
  end_line : Nat
  language : String
  text : String
  commit_hash : Option String
deriving DecidableEq

/-- The metadata dictionary attached to a retrieved result, as consumed
by the Sources section of `app.py` (file path, line range, language). -/
structure ChunkMeta where
  file_path : String
  start_line : Nat
  end_line : Nat
  language : String
deriving DecidableEq

/-- A retrieved result as consumed by the ask handler in `app.py`: a
metadata dictionary, the chunk text, and an optional distance score
(the handler reads it with r.get and the default 0.0). -/
structure RetrievedResult where
  metadata : ChunkMeta
  text : String
  score : Option ℚ
deriving DecidableEq

/-- Modelled from the spec: the vector index store keyed by repo_id
(`indexing/vector_store.py` is not among the available sources).  An
association list from repo identifier to the persisted chunk set; the
embedding vectors themselves play no role in the claims. -/
def IndexStore : Type := List (String × List CodeChunk)

/-- Modelled from the spec: `load_index(repo_id)` fails with a
not-found condition (`FileNotFoundError`) if no index has ever been
built for repo_id, and otherwise returns the stored chunk set. -/
def load_index (store : IndexStore) (repo_id : String) : Except PyError (List CodeChunk) :=
  match List.lookup repo_id store with
  | none => Except.error (.fileNotFoundError ("No index found for " ++ repo_id))
  | some chunks => Except.ok chunks

/-- Modelled from the spec: `build_index(repo_id, chunks)` embeds every
chunk text (the embedding provider is the external `embed`) and, when
every embedding call succeeds, persists the full chunk set under
repo_id, replacing any prior entry for that repo_id; a failed embedding
call aborts the build with the provider error. -/
def build_index (embed : String → Except PyError (List ℚ)) (store : IndexStore)
    (repo_id : String) (chunks : List CodeChunk) : Except PyError IndexStore :=
  match chunks.mapM (fun c => embed c.text) with
  | .error e => .error e
  | .ok _ => .ok ((repo_id, chunks) :: store.filter (fun p => !(p.1 == repo_id)))

/-- The observable store after one build attempt together with the
error, if any: a failed build leaves the prior store in place, a
successful build installs the new one. -/
def build_index_step (embed : String → Except PyError (List ℚ)) (store : IndexStore)
    (repo_id : String) (chunks : List CodeChunk) : IndexStore × Option PyError :=
  match build_index embed store repo_id chunks with
  | .error e => (store, some e)
  | .ok store2 => (store2, none)

/-- Embedding of `ensure_index_exists` from `app.py`: try `load_index`,
return True on success, return False when `FileNotFoundError` is
raised; any other exception would propagate. -/
def ensure_index_exists (store : IndexStore) (repo_id : String) : Except PyError Bool :=
  match load_index store repo_id with
  | .ok _ => .ok true
  | .error (.fileNotFoundError _) => .ok false
  | .error e => .error e

/-- The repo identifier computed in `main` of `app.py` for a GitHub
repository selected by its full name. -/
def mk_repo_id (selected_full_name : String) : String :=
  "github::" ++ selected_full_name

/-- A chat message as passed to the chat-completions API. -/
structure ChatMessage where
  role : String
  content : String
deriving DecidableEq

/-- Modelled from the spec: `build_rag_prompt` (`llm/prompts.py` is not
among the available sources) constructs a single prompt embedding the
question and the location and text of each retrieved chunk. -/
def build_rag_prompt (question : String) (retrieved_chunks : List RetrievedResult) : String :=
  "Question: " ++ question ++ "\n" ++
    String.join (retrieved_chunks.map (fun r =>
      r.metadata.file_path ++ " lines " ++ toString r.metadata.start_line ++ "-" ++
        toString r.metadata.end_line ++ ":\n" ++ r.text ++ "\n"))

/-- Embedding of `answer_with_rag` from `llm/chat_llm.py`: build the
prompt, issue one chat-completion request with the fixed system message
and one user message, and return the trimmed response text.  The
provider is the external `complete`; the second component of the result
is the list of requests issued, in order. -/
def answer_with_rag (complete : List ChatMessage → Except PyError String)
    (question : String) (retrieved_chunks : List RetrievedResult) :
    Except PyError String × List (List ChatMessage) :=
  let messages : List ChatMessage :=
    [⟨"system", "You are a helpful AI code assistant."⟩,
     ⟨"user", build_rag_prompt question retrieved_chunks⟩]
  match complete messages with
  | .error e => (.error e, [messages])
  | .ok resp => (.ok resp.trim, [messages])

/-- The guardrail constant MAX_DISTANCE from the ask handler in
`app.py`. -/
def MAX_DISTANCE : ℚ := 2

/-- The score read from a retrieved result by the ask handler:
r.get with key score and default 0.0. -/
def getScore (r : RetrievedResult) : ℚ := r.score.getD 0

/-- The filtering loop of the ask handler in `app.py`: walk the
retrieved results in order and append those with score < MAX_DISTANCE
to the accumulator. -/
def relevanceFilterLoop (acc : List RetrievedResult) :
    List RetrievedResult → List RetrievedResult
  | [] => acc
  | r :: rest =>
      if getScore r < MAX_DISTANCE then relevanceFilterLoop (acc ++ [r]) rest
      else relevanceFilterLoop acc rest

/-- The relevance filter as invoked in `app.py` (loop started with the
empty accumulator). -/
def qaFilter (retrieved : List RetrievedResult) : List RetrievedResult :=
  relevanceFilterLoop [] retrieved

/-- The deduplication key used by the sources loop in `app.py`:
(file_path, start_line, end_line). -/
def srcKey (m : ChunkMeta) : String × Nat × Nat :=
  (m.file_path, m.start_line, m.end_line)

/-- The sources loop of the ask handler in `app.py`: walk the used
chunks in order, skip a result whose key is already in seen, otherwise
record the key and keep the metadata. -/
def dedupLoop (seen : List (String × Nat × Nat)) :
    List RetrievedResult → List ChunkMeta
  | [] => []
  | r :: rest =>
      if srcKey r.metadata ∈ seen then dedupLoop seen rest
      else r.metadata :: dedupLoop (srcKey r.metadata :: seen) rest

/-- The sources list stored in session state by the ask handler. -/
def sourcesMeta (used_chunks : List RetrievedResult) : List ChunkMeta :=
  dedupLoop [] used_chunks

/-- Outcome of one press of the Ask button in `app.py`. -/
inductive QAOutcome
  | noResults
  | noStrongMatch (msg : String)
  | answered (answer : String) (sources : List ChunkMeta)
deriving DecidableEq

/-- Embedding of the ask handler in `app.py`: warn when retrieval is
empty; otherwise filter by score, warn and stop when nothing survives,
otherwise generate the answer over the filtered results and store the
deduplicated sources. -/
def qaAsk (complete : List ChatMessage → Except PyError String)
    (retrieved : List RetrievedResult) (question : String) : Except PyError QAOutcome :=
  if retrieved.isEmpty then .ok .noResults
  else
    let filtered := qaFilter retrieved
    if filtered.isEmpty then
      .ok (.noStrongMatch ("I found some code, but none of it looked strongly related. " ++
        "Try rephrasing your question or being more specific."))
    else
      match answer_with_rag complete question filtered with
      | (.error e, _) => .error e
      | (.ok answer, _) => .ok (.answered answer (sourcesMeta filtered))

/-! Sample inputs used by the concrete witness instantiations. -/

/-- Sample chunk metadata. -/
def sampleMeta : ChunkMeta := ⟨"auth.py", 1, 10, "python"⟩

/-- Sample retrieved result whose distance 5/2 lies beyond the guardrail. -/
def sampleFarResult : RetrievedResult :=
  ⟨sampleMeta, "def login(): pass", some ⟨5, 2, by decide, by decide⟩⟩

/-- Chat provider that always answers. -/
def okProvider : List ChatMessage → Except PyError String := fun _ => Except.ok " The answer. "

/-- Chat provider that always fails. -/
def failProvider : List ChatMessage → Except PyError String :=
  fun _ => Except.error (.runtimeError "rate limited")

/-- Sample code chunk. -/
def sampleChunk : CodeChunk := ⟨"github::o/r", "auth.py", 1, 10, "python", "def login(): pass", none⟩

/-- Embedding provider that always succeeds. -/
def okEmbed : String → Except PyError (List ℚ) := fun _ => Except.ok [1]

/-! Helper lemmas shared by the claim theorems. -/

/-- The filtering loop of the ask handler equals a plain filter prefixed
by the accumulator. -/
theorem relevanceFilterLoop_eq (l : List RetrievedResult) :
    ∀ acc, relevanceFilterLoop acc l =
      acc ++ l.filter (fun r => decide (getScore r < MAX_DISTANCE)) := by
  induction l with
  | nil => intro acc; simp [relevanceFilterLoop]
  | cons r rest ih =>
      intro acc
      by_cases h : getScore r < MAX_DISTANCE
      · simp [relevanceFilterLoop, h, ih, List.filter_cons]
      · simp [relevanceFilterLoop, h, ih, List.filter_cons]

/-- The relevance filter is the filter at threshold MAX_DISTANCE. -/
theorem qaFilter_eq (retrieved : List RetrievedResult) :
    qaFilter retrieved = retrieved.filter (fun r => decide (getScore r < MAX_DISTANCE)) := by
  simpa using relevanceFilterLoop_eq retrieved []

/-- Lookup is unchanged by removing the entries of another key. -/
theorem lookup_filter_ne (store : IndexStore) (rid r2 : String) (h : r2 ≠ rid) :
    List.lookup r2 (store.filter (fun p => !(p.1 == rid))) = List.lookup r2 store := by
  induction store with
  | nil => rfl
  | cons p rest ih =>
      obtain ⟨k, v⟩ := p
      by_cases hk : k = rid
      · subst hk
        have hr2 : (r2 == k) = false := beq_eq_false_iff_ne.mpr h
        simp [List.filter_cons, List.lookup, hr2, ih]
      · have hkb : (!(k == rid)) = true := by simp [hk]
        by_cases hr : r2 = k
        · subst hr
          simp [List.filter_cons, hkb, List.lookup]
        · have hr2 : (r2 == k) = false := beq_eq_false_iff_ne.mpr hr
          simp [List.filter_cons, hkb, List.lookup, hr2, ih]

/-- Elements produced by the sources loop are pairwise distinct in key
and their keys avoid the seen set. -/
theorem dedupLoop_pairwise_aux (l : List RetrievedResult) :
    ∀ seen, List.Pairwise (fun a b => srcKey a ≠ srcKey b) (dedupLoop seen l) ∧
      ∀ m ∈ dedupLoop seen l, srcKey m ∉ seen := by
  induction l with
  | nil => intro seen; simp [dedupLoop]
  | cons r rest ih =>
      intro seen
      by_cases h : srcKey r.metadata ∈ seen
      · simpa [dedupLoop, h] using ih seen
      · rw [dedupLoop, if_neg h]
        obtain ⟨hp, hn⟩ := ih (srcKey r.metadata :: seen)
        refine ⟨List.Pairwise.cons ?_ hp, ?_⟩
        · intro b hb hEq
          exact hn b hb (by rw [← hEq]; exact List.mem_cons_self _ _)
        · intro m hm
          rcases List.mem_cons.mp hm with hme | hm2
          · rw [hme]; exact h
          · exact fun hmem => hn m hm2 (List.mem_cons_of_mem _ hmem)

/-- The sources loop output is a subsequence of the metadata sequence. -/
theorem dedupLoop_sublist_aux (l : List RetrievedResult) :
    ∀ seen, (dedupLoop seen l).Sublist (l.map (fun r => r.metadata)) := by
  induction l with
  | nil => intro seen; simp [dedupLoop]
  | cons r rest ih =>
      intro seen
      by_cases h : srcKey r.metadata ∈ seen
      · rw [dedupLoop, if_pos h, List.map_cons]
        exact List.Sublist.cons _ (ih seen)
      · rw [dedupLoop, if_neg h, List.map_cons]
        exact List.Sublist.cons₂ _ (ih _)

/-- For a key outside the seen set, the first element the sources loop
keeps with that key is the first element of the input with that key. -/
theorem dedupLoop_find_aux (l : List RetrievedResult) (k : String × Nat × Nat) :
    ∀ seen, k ∉ seen →
      (dedupLoop seen l).find? (fun m => decide (srcKey m = k)) =
        (l.map (fun r => r.metadata)).find? (fun m => decide (srcKey m = k)) := by
  induction l with
  | nil => intro seen _; simp [dedupLoop]
  | cons r rest ih =>
      intro seen hk
      by_cases h : srcKey r.metadata ∈ seen
      · rw [dedupLoop, if_pos h, List.map_cons]
        have hne : srcKey r.metadata ≠ k := fun hEq => hk (hEq ▸ h)
        rw [ih seen hk, List.find?_cons_of_neg _ (by simp [hne])]
      · rw [dedupLoop, if_neg h, List.map_cons]
        by_cases hek : srcKey r.metadata = k
        · rw [List.find?_cons_of_pos _ (by simp [hek]),
            List.find?_cons_of_pos _ (by simp [hek])]
        · rw [List.find?_cons_of_neg _ (by simp [hek]),
            List.find?_cons_of_neg _ (by simp [hek])]
          exact ih _ (by
            intro hmem
            rcases List.mem_cons.mp hmem with hme | hm2
            · exact hek hme.symm
            · exact hk hm2)

/-! Claim theorems. -/

/-- C1: the relevance filter applied by the ask handler keeps exactly
the retrieved results whose distance score (read with the default 0.0)
is strictly below the fixed threshold 2.0, and when retrieval is
nonempty but every result scores at or above the threshold no answer is
generated: the handler stops with the no-strongly-related warning. -/
theorem claim_C1_relevance_threshold
    (complete : List ChatMessage → Except PyError String)
    (retrieved : List RetrievedResult) (question : String) :
    MAX_DISTANCE = 2 ∧
    qaFilter retrieved = retrieved.filter (fun r => decide (getScore r < 2)) ∧
    (retrieved ≠ [] → (∀ r ∈ retrieved, 2 ≤ getScore r) →
      qaAsk complete retrieved question =
        Except.ok (QAOutcome.noStrongMatch
          ("I found some code, but none of it looked strongly related. " ++
            "Try rephrasing your question or being more specific."))) := by
  refine ⟨rfl, ?_, ?_⟩
  · rw [qaFilter_eq]; rfl
  · intro h1 h2
    have hfil : qaFilter retrieved = [] := by
      rw [qaFilter_eq]
      rw [List.filter_eq_nil_iff]
      intro a ha
      simpa using not_lt.mpr (h2 a ha)
    have hne : retrieved.isEmpty = false := by
      cases retrieved with
      | nil => exact absurd rfl h1
      | cons a t => rfl
    simp [qaAsk, hne, hfil]

/-- C2: the indexing action calls clone_or_update_repo with three
positional arguments against a two-parameter definition, so the body
raises TypeError before any work is done, the except-block turns it
into the failure message, and the action can never succeed. -/
theorem claim_C2_clone_call_arity (rest : Unit → Except PyError String) :
    fetchAndIndexAction rest =
      IndexOutcome.failure
        "Failed to fetch/index repo: clone_or_update_repo() takes 2 positional arguments but 3 were given" ∧
    ∀ m, fetchAndIndexAction rest ≠ IndexOutcome.success m := by
  have harity : callPositional "clone_or_update_repo" clone_or_update_repo_params.length
      fetchIndexCallArgCount =
      Except.error (PyError.typeError
        "clone_or_update_repo() takes 2 positional arguments but 3 were given") := by
    rfl
  have hbody : fetchAndIndexBody rest =
      Except.error (PyError.typeError
        "clone_or_update_repo() takes 2 positional arguments but 3 were given") := by
    unfold fetchAndIndexBody; rw [harity]
  have h1 : fetchAndIndexAction rest =
      IndexOutcome.failure
        "Failed to fetch/index repo: clone_or_update_repo() takes 2 positional arguments but 3 were given" := by
    unfold fetchAndIndexAction; rw [hbody]; rfl
  exact ⟨h1, fun m hm => by rw [h1] at hm; exact IndexOutcome.noConfusion hm⟩

/-- C3: validate_config raises RuntimeError exactly when
OPENAI_API_KEY is missing (unset or empty), and does not look at
GITHUB_TOKEN; main halts before rendering exactly in that case; and
clone_or_update_repo checks GITHUB_TOKEN itself when a clone is
attempted. -/
theorem claim_C3_startup_credentials (c : Config)
    (gitResult : Except PyError (String × String)) (owner name : String) :
    ((∃ m, validate_config c = Except.error (PyError.runtimeError m)) ↔
      truthy c.OPENAI_API_KEY = false) ∧
    (∀ t, validate_config ⟨c.OPENAI_API_KEY, t⟩ = validate_config c) ∧
    ((∃ m, mainStartup c = StartupResult.halted m) ↔ truthy c.OPENAI_API_KEY = false) ∧
    (truthy c.GITHUB_TOKEN = false →
      clone_or_update_repo c gitResult owner name =
        Except.error (PyError.runtimeError
          "GITHUB_TOKEN is not set. Add it to your .env for Phase 2.")) := by
  refine ⟨?_, ?_, ?_, ?_⟩
  · cases h : truthy c.OPENAI_API_KEY with
    | true => simp [validate_config, h]
    | false => simp [validate_config, h]
  · intro t; rfl
  · cases h : truthy c.OPENAI_API_KEY with
    | true => simp [mainStartup, validate_config, h]
    | false => simp [mainStartup, validate_config, h]
  · intro hg; simp [clone_or_update_repo, hg]

/-- C4: load_index raises the not-found condition exactly for an
unbuilt repo_id, a successful build_index makes load_index succeed for
that repo_id, and ensure_index_exists converts the not-found condition
into the boolean false without ever propagating it. -/
theorem claim_C4_load_not_found
    (embed : String → Except PyError (List ℚ)) (store : IndexStore)
    (repo_id : String) (chunks : List CodeChunk) :
    (List.lookup repo_id store = none →
      load_index store repo_id =
        Except.error (PyError.fileNotFoundError ("No index found for " ++ repo_id))) ∧
    (∀ store2, build_index embed store repo_id chunks = Except.ok store2 →
      load_index store2 repo_id = Except.ok chunks) ∧
    (ensure_index_exists store repo_id = Except.ok false ↔
      ∃ m, load_index store repo_id = Except.error (PyError.fileNotFoundError m)) ∧
    (∀ e, ensure_index_exists store repo_id ≠ Except.error e) := by
  refine ⟨?_, ?_, ?_, ?_⟩
  · intro h; simp [load_index, h]
  · intro store2 h
    unfold build_index at h
    cases hm : chunks.mapM (fun c => embed c.text) with
    | error e => rw [hm] at h; exact Except.noConfusion h
    | ok embs =>
        rw [hm] at h
        injection h with h2
        rw [← h2]
        simp [load_index, List.lookup]
  · cases hl : List.lookup repo_id store with
    | none => simp [ensure_index_exists, load_index, hl]
    | some cs => simp [ensure_index_exists, load_index, hl]
  · intro e
    cases hl : List.lookup repo_id store with
    | none => simp [ensure_index_exists, load_index, hl]
    | some cs => simp [ensure_index_exists, load_index, hl]

/-- C5: the relevance filter never reorders: its output is a
subsequence of the retrieved list, each survivor in its original
relative position. -/
theorem claim_C5_filter_is_subsequence (retrieved : List RetrievedResult) :
    (qaFilter retrieved).Sublist retrieved := by
  rw [qaFilter_eq]
  exact List.filter_sublist retrieved

/-- C6: answer_with_rag issues exactly one chat-completion request,
whose message list is the fixed system message followed by one user
message built from the question and the retrieved chunks, and on
success it returns the trimmed response text. -/
theorem claim_C6_single_request
    (complete : List ChatMessage → Except PyError String)
    (question : String) (chunks : List RetrievedResult) (resp : String)
    (h : complete [⟨"system", "You are a helpful AI code assistant."⟩,
        ⟨"user", build_rag_prompt question chunks⟩] = Except.ok resp) :
    answer_with_rag complete question chunks =
      (Except.ok resp.trim,
        [[⟨"system", "You are a helpful AI code assistant."⟩,
          ⟨"user", build_rag_prompt question chunks⟩]]) := by
  simp only [answer_with_rag]
  rw [h]

/-- C7: answer_with_rag performs no retry and no transformation of
provider failures: when the single request fails, the provider error
propagates unchanged, and exactly one request was issued. -/
theorem claim_C7_no_retry
    (complete : List ChatMessage → Except PyError String)
    (question : String) (chunks : List RetrievedResult) (e : PyError)
    (h : complete [⟨"system", "You are a helpful AI code assistant."⟩,
        ⟨"user", build_rag_prompt question chunks⟩] = Except.error e) :
    (answer_with_rag complete question chunks).1 = Except.error e ∧
    (answer_with_rag complete question chunks).2.length = 1 := by
  simp only [answer_with_rag]
  rw [h]
  exact ⟨rfl, rfl⟩

/-- C8: the repo identifier for a GitHub repository selected by full
name owner/name is the exact string github:: followed by the unmodified
full name. -/
theorem claim_C8_repo_id_format (owner name : String) :
    mk_repo_id (owner ++ "/" ++ name) = "github::" ++ owner ++ "/" ++ name := by
  unfold mk_repo_id
  simp [String.append_assoc]

/-- C9: one build attempt either fails leaving the prior store exactly
as it was, or succeeds and fully replaces the entry for repo_id (a load
then returns exactly the new chunk set) while every other repo_id loads
as before. -/
theorem claim_C9_build_overwrite
    (embed : String → Except PyError (List ℚ)) (store : IndexStore)
    (repo_id : String) (chunks : List CodeChunk) :
    (∀ e, (build_index_step embed store repo_id chunks).2 = some e →
      (build_index_step embed store repo_id chunks).1 = store) ∧
    ((build_index_step embed store repo_id chunks).2 = none →
      load_index (build_index_step embed store repo_id chunks).1 repo_id = Except.ok chunks ∧
      ∀ rid2, rid2 ≠ repo_id →
        load_index (build_index_step embed store repo_id chunks).1 rid2 =
          load_index store rid2) := by
  unfold build_index_step build_index
  cases hm : chunks.mapM (fun c => embed c.text) with
  | error e2 =>
      refine ⟨fun e he => rfl, fun hnone => ?_⟩
      exact Option.noConfusion hnone
  | ok embs =>
      refine ⟨fun e he => Option.noConfusion he, fun _ => ⟨?_, ?_⟩⟩
      · simp [load_index, List.lookup]
      · intro rid2 hne
        have h2 : (rid2 == repo_id) = false := beq_eq_false_iff_ne.mpr hne
        simp [load_index, List.lookup, h2, lookup_filter_ne store repo_id rid2 hne]

/-- C10: the sources list built by the ask handler: no two entries
share the (file_path, start_line, end_line) key, the entries form a
subsequence of the metadata of the used chunks in their original
relative order, and for every key the surviving entry is the first
occurrence in the input. -/
theorem claim_C10_sources_unique (used_chunks : List RetrievedResult) :
    List.Pairwise (fun a b => srcKey a ≠ srcKey b) (sourcesMeta used_chunks) ∧
    (sourcesMeta used_chunks).Sublist (used_chunks.map (fun r => r.metadata)) ∧
    ∀ k, (sourcesMeta used_chunks).find? (fun m => decide (srcKey m = k)) =
      (used_chunks.map (fun r => r.metadata)).find? (fun m => decide (srcKey m = k)) := by
  refine ⟨(dedupLoop_pairwise_aux used_chunks []).1, dedupLoop_sublist_aux used_chunks [], ?_⟩
  intro k
  exact dedupLoop_find_aux used_chunks k [] (by simp)

/-! Witnesses: concrete instantiations of the claim theorems that carry
hypotheses. -/

/-- Witness for C1: a single retrieved result at distance 5/2 triggers
the no-strongly-related warning. -/
theorem claim_C1_witness :
    qaAsk okProvider [sampleFarResult] "Where is user authentication implemented?" =
      Except.ok (QAOutcome.noStrongMatch
        ("I found some code, but none of it looked strongly related. " ++
          "Try rephrasing your question or being more specific.")) :=
  (claim_C1_relevance_threshold okProvider [sampleFarResult]
    "Where is user authentication implemented?").2.2 (by decide) (by decide)

/-- Witness for C3: with GITHUB_TOKEN absent, clone_or_update_repo
raises the RuntimeError. -/
theorem claim_C3_witness :
    clone_or_update_repo ⟨some "sk-test", none⟩ (Except.ok ("p", "h")) "octo" "repo" =
      Except.error (PyError.runtimeError
        "GITHUB_TOKEN is not set. Add it to your .env for Phase 2.") :=
  (claim_C3_startup_credentials ⟨some "sk-test", none⟩
    (Except.ok ("p", "h")) "octo" "repo").2.2.2 rfl

/-- Witness for C4: loading from the empty store raises the not-found
condition. -/
theorem claim_C4_witness :
    load_index ([] : IndexStore) "github::o/r" =
      Except.error (PyError.fileNotFoundError ("No index found for " ++ "github::o/r")) :=
  (claim_C4_load_not_found okEmbed [] "github::o/r" []).1 rfl

/-- Witness for C6: a concrete successful provider call yields the
trimmed response and the single two-message request. -/
theorem claim_C6_witness :
    answer_with_rag okProvider "q" [] =
      (Except.ok (String.trim " The answer. "),
        [[⟨"system", "You are a helpful AI code assistant."⟩,
          ⟨"user", build_rag_prompt "q" []⟩]]) :=
  claim_C6_single_request okProvider "q" [] " The answer. " rfl

/-- Witness for C7: a concrete failing provider call propagates the
error after exactly one request. -/
theorem claim_C7_witness :
    (answer_with_rag failProvider "q" []).1 =
      Except.error (PyError.runtimeError "rate limited") ∧
    (answer_with_rag failProvider "q" []).2.length = 1 :=
  claim_C7_no_retry failProvider "q" [] (PyError.runtimeError "rate limited") rfl

/-- Witness for C9: after a concrete successful build over the empty
store, the load returns exactly the chunk set that was built. -/
theorem claim_C9_witness :
    load_index (build_index_step okEmbed [] "github::o/r" [sampleChunk]).1 "github::o/r" =
      Except.ok [sampleChunk] :=
  ((claim_C9_build_overwrite okEmbed [] "github::o/r" [sampleChunk]).2 rfl).1
